import Mathlib

/-!
Verification development for the MLOps Machine Maintenance repository.

Shallow embedding of the three source files:
  * `src/data_processing.py` — `DataProcessing` (load → preprocess → split/scale/save)
  * `src/model_training.py`  — `ModelTraining` (load → train → evaluate)
  * `app.py`                 — Flask serving layer (form → feature vector → scale → predict)

Modelling conventions:
  * Python floats are idealised as `Rat`; `numpy` NaN for a missing value is `Option`.
  * Exceptions are `Except`; the project's `CustomException(stage, cause)` wrapper is a
    structure whose cause distinguishes the stage's own explicit state-check `ValueError`
    (`ErrCause.stateError`) from an error surfaced by a library call (`ErrCause.libError`).
  * `sklearn.preprocessing.LabelEncoder.fit_transform` is `np.unique` + inverse indices:
    classes are the distinct strings in ascending lexicographic order, the code of a value
    is its index among those sorted classes.
  * `sklearn.preprocessing.StandardScaler` keeps per-column mean and (population) variance;
    its `scale_` is `sqrt(var)` with zeros replaced by 1 (`_handle_zeros_in_scale`), and
    `transform` computes `(x - mean) / scale` positionwise.
  * `sklearn.model_selection.train_test_split` is external library code; the embedding
    records the exact call the pipeline makes (data, labels, `test_size`, `random_state`,
    `stratify`) in a `SplitCall` structure.
-/

namespace MachineMaintenance

/-! ### StandardScaler (sklearn component used by both training and serving) -/

/-- Fitted `StandardScaler` state: per-feature mean and population variance
(`StandardScaler.mean_` and `StandardScaler.var_`). -/
structure ScalerState where
  mean : List Rat
  var : List Rat
  deriving DecidableEq

/-- Per-feature divisor used by `StandardScaler.transform`: `sqrt(var)`, with a zero
standard deviation replaced by 1 (`sklearn.preprocessing._data._handle_zeros_in_scale`),
so a zero-variance feature never divides by zero. -/
def scaleOf (v : Rat) : Rat := if v = 0 then 1 else Rat.sqrt v

/-- Positionwise `(x - mean) / scale` over a row, mean vector and variance vector
(`StandardScaler.transform` on one row). -/
def transformRow : List Rat → List Rat → List Rat → List Rat
  | x :: xs, m :: ms, v :: vs => (x - m) / scaleOf v :: transformRow xs ms vs
  | _, _, _ => []

/-- `StandardScaler.transform` of one feature row with a fitted state. -/
def ScalerState.transform (st : ScalerState) (row : List Rat) : List Rat :=
  transformRow row st.mean st.var

/-- Mean of one feature column (numpy mean over axis 0). -/
def colMean (col : List Rat) : Rat := col.sum / (col.length : Rat)

/-- Population variance of one feature column (numpy var with `ddof=0`,
which is what `StandardScaler` uses). -/
def colVar (col : List Rat) : Rat :=
  ((col.map fun x => (x - colMean col) ^ 2).sum) / (col.length : Rat)

/-- Column `j` of a matrix given as a list of rows (all rows of the rectangular numpy
array have the same length, so the `getD` default is never consulted). -/
def column (X : List (List Rat)) (j : Nat) : List Rat := X.map fun row => row.getD j 0

/-- Number of feature columns of the matrix (numpy `shape[1]`). -/
def numCols (X : List (List Rat)) : Nat := (X.headD []).length

/-- `StandardScaler.fit` on a matrix given as a list of rows: per-column mean and
per-column population variance. -/
def fitScaler (X : List (List Rat)) : ScalerState :=
  { mean := (List.range (numCols X)).map fun j => colMean (column X j)
    var := (List.range (numCols X)).map fun j => colVar (column X j) }

/-- `StandardScaler.fit_transform`: fit on the whole matrix, then transform every row. -/
def fitTransform (X : List (List Rat)) : List (List Rat) :=
  X.map (fitScaler X).transform

/-! ### LabelEncoder (sklearn component used by `DataProcessing.preprocess`) -/

/-- Byte-order comparison of strings as lists of character codes, the order `np.unique`
sorts by (for the ASCII labels of this dataset it is plain lexicographic order):
`charListLeB as bs = true` iff `as` is lexicographically no greater than `bs`. -/
def charListLeB : List Char → List Char → Bool
  | [], _ => true
  | _ :: _, [] => false
  | a :: as, b :: bs =>
    if a.toNat < b.toNat then true
    else if b.toNat < a.toNat then false
    else charListLeB as bs

/-- Strict byte-order comparison of strings as lists of character codes. -/
def charListLtB : List Char → List Char → Bool
  | [], [] => false
  | [], _ :: _ => true
  | _ :: _, [] => false
  | a :: as, b :: bs =>
    if a.toNat < b.toNat then true
    else if b.toNat < a.toNat then false
    else charListLtB as bs

/-- Lexicographic `≤` on strings as a Boolean comparison. -/
def strLeB (a b : String) : Bool := charListLeB a.toList b.toList

/-- Lexicographic `<` on strings as a Boolean comparison. -/
def strLtB (a b : String) : Bool := charListLtB a.toList b.toList

/-- Insertion into a lexicographically sorted list of strings. -/
def insertSorted (x : String) : List String → List String
  | [] => [x]
  | y :: ys => if strLeB x y then x :: y :: ys else y :: insertSorted x ys

/-- Insertion sort of strings in ascending lexicographic order. -/
def sortStr : List String → List String
  | [] => []
  | x :: xs => insertSorted x (sortStr xs)

/-- The pairwise ordering predicate of a lexicographically sorted string list. -/
def leBPair (a b : String) : Prop := strLeB a b = true

/-- Classes of `sklearn.preprocessing.LabelEncoder.fit`: `np.unique` of the column, i.e.
the distinct strings in ascending lexicographic order. -/
def sortedUnique (xs : List String) : List String :=
  sortStr xs.dedup

/-- Code assigned by a fitted `LabelEncoder` to one value: its index among the sorted
distinct classes (`np.unique(..., return_inverse=True)`). -/
def encodeOf (xs : List String) (x : String) : Nat :=
  (sortedUnique xs).indexOf x

/-- `LabelEncoder.fit_transform` over a whole column. -/
def labelEncode (xs : List String) : List Nat :=
  xs.map (encodeOf xs)

/-- Modelled from the spec: the spec claims label codes are assigned in the order the
category strings were first observed ("first-seen label-encoding semantics"). This
definition follows the spec's words, for comparison with `labelEncode`, which embeds
the source's actual `LabelEncoder`. Classes in first-observation order. -/
def firstSeenClasses (xs : List String) : List String :=
  xs.foldl (fun acc x => if x ∈ acc then acc else acc ++ [x]) []

/-- Modelled from the spec: first-seen encoding of a whole column (spec's words,
to be compared with `labelEncode`). -/
def firstSeenEncode (xs : List String) : List Nat :=
  xs.map fun x => (firstSeenClasses xs).indexOf x

end MachineMaintenance

namespace MachineMaintenance.App

/-! ### Serving layer: `app.py` -/

open MachineMaintenance

/-- Feature schema of `app.py` (`FEATURES`); the order must match training. -/
def FEATURES : List String :=
  ["Operation_Mode", "Temperature_C", "Vibration_Hz", "Power_Consumption_kW",
   "Network_Latency_ms", "Packet_Loss_%", "Quality_Control_Defect_Rate_%",
   "Production_Speed_units_per_hr", "Predictive_Maintenance_Score", "Error_Rate_%",
   "Year", "Month", "Day", "Hour"]

/-- Class-index → human-readable label map of `app.py` (`LABELS`). -/
def LABELS : List (Int × String) := [(0, "High"), (1, "Low"), (2, "Medium")]

/-- Serving-side operation-mode encoding of `app.py` (`OPERATION_MODE_MAP`),
in the dict's insertion order. -/
def OPERATION_MODE_MAP : List (String × Nat) :=
  [("Idle", 0), ("Active", 1), ("Maintenance", 2)]

/-- Known operation-mode labels (`OPERATION_MODE_CHOICES = list(OPERATION_MODE_MAP.keys())`). -/
def OPERATION_MODE_CHOICES : List String := OPERATION_MODE_MAP.map Prod.fst

/-- Numeric view of `DEFAULTS_FALLBACK`, parametrised by `datetime.now()`'s calendar
parts (the date defaults are computed from the current time at module load). For the
non-numeric entry `Operation_Mode` this table is never consulted by the numeric branch;
the final 0 mirrors the `.get(feat, 0.0)` default. -/
def DEFAULTS_FALLBACK (nowYear nowMonth nowDay nowHour : Nat) : String → Rat := fun feat =>
  if feat = "Temperature_C" then 65
  else if feat = "Vibration_Hz" then 50
  else if feat = "Power_Consumption_kW" then 35
  else if feat = "Network_Latency_ms" then 15
  else if feat = "Packet_Loss_%" then 1 / 2
  else if feat = "Quality_Control_Defect_Rate_%" then 1
  else if feat = "Production_Speed_units_per_hr" then 120
  else if feat = "Predictive_Maintenance_Score" then 55
  else if feat = "Error_Rate_%" then 4 / 5
  else if feat = "Year" then nowYear
  else if feat = "Month" then nowMonth
  else if feat = "Day" then nowDay
  else if feat = "Hour" then min nowHour 23
  else 0

/-- Submitted form data: field name to raw string value, as `request.form`. -/
abbrev Form := List (String × String)

/-- Errors raised while the POST handler assembles the feature vector: the explicit
`ValueError` for an unknown operation mode, and the `float()` conversion failure. -/
inductive AppError where
  | unknownCategory (label : String)
  | invalidValue (feat : String) (raw : String)
  deriving DecidableEq

/-- Message text attached to each handler error (the `str(e)` the UI shows). -/
def AppError.message : AppError → String
  | .unknownCategory label => "Unknown Operation_Mode " ++ label ++ "."
  | .invalidValue _ raw => "could not convert string to float: " ++ raw

/-- Digits-to-number accumulator used by the numeric form parser. -/
def digitsVal (cs : List Char) : Nat :=
  cs.foldl (fun a c => a * 10 + (c.toNat - 48)) 0

/-- Python `float()` on the plain decimal strings the form submits: optional sign,
integer digits, optional fractional digits. Returns `none` when the string is not a
decimal numeral (the `ValueError` path of `float(raw_val)`). -/
def parseFloat (s : String) : Option Rat :=
  let cs := s.toList
  let signed : Bool × List Char :=
    match cs with
    | '-' :: rest => (true, rest)
    | '+' :: rest => (false, rest)
    | _ => (false, cs)
  let body := signed.2
  let ip := body.takeWhile (fun c => c ≠ '.')
  let rest := body.dropWhile (fun c => c ≠ '.')
  let fp : Option (List Char) :=
    match rest with
    | [] => some []
    | _ :: fs => if fs.all Char.isDigit then some fs else none
  match fp with
  | none => none
  | some f =>
    if ip.all Char.isDigit ∧ (ip ≠ [] ∨ f ≠ []) then
      let mag : Rat := (digitsVal ip : Rat) + (digitsVal f : Rat) / ((10 : Rat) ^ f.length)
      some (if signed.1 then -mag else mag)
    else none

/-- Operation-mode branch of the POST handler's feature loop:
`request.form.get("Operation_Mode", OPERATION_MODE_CHOICES[0])` followed by the
`OPERATION_MODE_MAP` lookup, raising `ValueError` when the label is unknown. -/
def modeValue (form : Form) : Except AppError Nat :=
  let mode_label := (form.lookup "Operation_Mode").getD (OPERATION_MODE_CHOICES.getD 0 "")
  match OPERATION_MODE_MAP.lookup mode_label with
  | some c => .ok c
  | none => .error (.unknownCategory mode_label)

/-- Numeric branch of the POST handler's feature loop:
`float(request.form.get(feat, str(DEFAULTS_FALLBACK.get(feat, 0.0))))`. When the field
is absent the default is used directly — `float(str(d))` round-trips exactly for the
literal defaults in the table. -/
def numericValue (defaults : String → Rat) (form : Form) (feat : String) : Except AppError Rat :=
  match form.lookup feat with
  | some raw =>
    match parseFloat raw with
    | some v => .ok v
    | none => .error (.invalidValue feat raw)
  | none => .ok (defaults feat)

/-- One iteration of the POST handler's `for feat in FEATURES` loop. -/
def featureValue (defaults : String → Rat) (form : Form) (feat : String) : Except AppError Rat :=
  if feat = "Operation_Mode" then (modeValue form).map fun c => (c : Rat)
  else numericValue defaults form feat

/-- The `for feat in FEATURES` loop: one value per feature in order, stopping at the
first raised error. -/
def buildLoop (defaults : String → Rat) (form : Form) :
    List String → Except AppError (List Rat)
  | [] => .ok []
  | feat :: rest =>
    match featureValue defaults form feat with
    | .error e => .error e
    | .ok v =>
      match buildLoop defaults form rest with
      | .error e => .error e
      | .ok vs => .ok (v :: vs)

/-- The handler's feature-vector assembly: the `values` list built in strict
`FEATURES` order, stopping at the first raised error. -/
def buildValues (defaults : String → Rat) (form : Form) : Except AppError (List Rat) :=
  buildLoop defaults form FEATURES

/-- Class-index → label rendering, with the `LABELS.get(pred_idx, f"Unknown ({pred_idx})")`
fallback for an index outside the map. -/
def labelFor (idx : Int) : String :=
  (LABELS.lookup idx).getD ("Unknown (" ++ toString idx ++ ")")

/-- Body of the POST branch's `try:` block — build the vector, scale it with the
persisted scaler, call the classifier (`predict`, the loaded model's prediction,
which may itself raise), map through `LABELS`. -/
def postBody (st : ScalerState) (predict : List Rat → Except String Int)
    (defaults : String → Rat) (form : Form) : Except String String :=
  match buildValues defaults form with
  | .error e => .error e.message
  | .ok values =>
    match predict (st.transform values) with
    | .error e => .error e
    | .ok idx => .ok (labelFor idx)

/-- Rendered response of the `index` route: the prediction slot plus the form-control
context passed to the template. -/
structure Response where
  prediction : Option String
  features : List String
  op_modes : List String
  deriving DecidableEq

/-- POST branch of the `index` route: the whole body runs inside
`try: ... except Exception as e: prediction = f"Error: {e}"`, so the response always
renders, with either the predicted label or a diagnostic string. -/
def indexPost (st : ScalerState) (predict : List Rat → Except String Int)
    (defaults : String → Rat) (form : Form) : Response :=
  { prediction :=
      some (match postBody st predict defaults form with
            | .ok p => p
            | .error e => "Error: " ++ e)
    features := FEATURES
    op_modes := OPERATION_MODE_CHOICES }

end MachineMaintenance.App

namespace MachineMaintenance

/-! ### Error wrapper shared by the training stages -/

/-- Cause carried inside the project's `CustomException`: a stage's own explicit
state-check `ValueError` (raised before any work proceeds) versus an error surfaced
by a library call on the data the stage passed it. -/
inductive ErrCause where
  | stateError (msg : String)
  | libError (msg : String)
  deriving DecidableEq

/-- True exactly on the explicit fail-fast state-check cause. -/
def ErrCause.isStateError : ErrCause → Bool
  | .stateError _ => true
  | .libError _ => false

/-- The project's `CustomException(stage_message, original_error)` wrapper. -/
structure CustomException where
  stage : String
  cause : ErrCause
  deriving DecidableEq

/-! ### Data model of `data_processing.py` -/

/-- Calendar value extracted from a successfully parsed `Timestamp`. -/
structure Timestamp where
  year : Nat
  month : Nat
  day : Nat
  hour : Nat
  deriving DecidableEq

/-- Conversion from a list of decimal digit characters to the number they denote. -/
def tsDigits (cs : List Char) : Nat :=
  cs.foldl (fun a c => a * 10 + (c.toNat - 48)) 0

/-- `pd.to_datetime(..., errors="coerce")` on the dataset's timestamp format
`YYYY-MM-DD HH:MM:SS`: a parse failure yields `none` (pandas `NaT`) instead of
raising. -/
def parseTimestamp (s : String) : Option Timestamp :=
  match s.toList with
  | [y1, y2, y3, y4, '-', m1, m2, '-', d1, d2, ' ', h1, h2, ':', n1, n2, ':', s1, s2] =>
    if ([y1, y2, y3, y4, m1, m2, d1, d2, h1, h2, n1, n2, s1, s2].all Char.isDigit) then
      let Y := tsDigits [y1, y2, y3, y4]
      let Mo := tsDigits [m1, m2]
      let D := tsDigits [d1, d2]
      let H := tsDigits [h1, h2]
      let Mi := tsDigits [n1, n2]
      let Se := tsDigits [s1, s2]
      if 1 ≤ Mo ∧ Mo ≤ 12 ∧ 1 ≤ D ∧ D ≤ 31 ∧ H < 24 ∧ Mi < 60 ∧ Se < 60 then
        some ⟨Y, Mo, D, H⟩
      else none
    else none
  | _ => none

/-- One raw CSV record: identifier, timestamp, the two categorical columns and the
nine numeric telemetry columns (`%` in the original column names written `Pct`). -/
structure RawRow where
  Timestamp : String
  Machine_ID : String
  Operation_Mode : String
  Efficiency_Status : String
  Temperature_C : Rat
  Vibration_Hz : Rat
  Power_Consumption_kW : Rat
  Network_Latency_ms : Rat
  Packet_Loss_Pct : Rat
  Quality_Control_Defect_Rate_Pct : Rat
  Production_Speed_units_per_hr : Rat
  Predictive_Maintenance_Score : Rat
  Error_Rate_Pct : Rat
  deriving DecidableEq

/-- One record after `DataProcessing.preprocess`: `Timestamp` and `Machine_ID` dropped,
categoricals label-encoded, calendar fields derived from the parsed timestamp —
`none` (pandas NaN from `NaT.dt.year` etc.) when the timestamp did not parse. -/
structure ProcRow where
  Operation_Mode : Nat
  Efficiency_Status : Nat
  Temperature_C : Rat
  Vibration_Hz : Rat
  Power_Consumption_kW : Rat
  Network_Latency_ms : Rat
  Packet_Loss_Pct : Rat
  Quality_Control_Defect_Rate_Pct : Rat
  Production_Speed_units_per_hr : Rat
  Predictive_Maintenance_Score : Rat
  Error_Rate_Pct : Rat
  Year : Option Nat
  Month : Option Nat
  Day : Option Nat
  Hour : Option Nat
  deriving DecidableEq

/-- Per-record part of `DataProcessing.preprocess`: parse the timestamp with coercion,
derive `Year`/`Month`/`Day`/`Hour` from it (missing when it is `NaT`), drop
`Timestamp` and `Machine_ID`, install the label codes computed over the whole column. -/
def preprocessRow (r : RawRow) (opCode effCode : Nat) : ProcRow :=
  let ts := parseTimestamp r.Timestamp
  { Operation_Mode := opCode
    Efficiency_Status := effCode
    Temperature_C := r.Temperature_C
    Vibration_Hz := r.Vibration_Hz
    Power_Consumption_kW := r.Power_Consumption_kW
    Network_Latency_ms := r.Network_Latency_ms
    Packet_Loss_Pct := r.Packet_Loss_Pct
    Quality_Control_Defect_Rate_Pct := r.Quality_Control_Defect_Rate_Pct
    Production_Speed_units_per_hr := r.Production_Speed_units_per_hr
    Predictive_Maintenance_Score := r.Predictive_Maintenance_Score
    Error_Rate_Pct := r.Error_Rate_Pct
    Year := ts.map Timestamp.year
    Month := ts.map Timestamp.month
    Day := ts.map Timestamp.day
    Hour := ts.map Timestamp.hour }

/-- Whole-frame part of `DataProcessing.preprocess`: label-encode the
`Operation_Mode` and `Efficiency_Status` columns with fresh `LabelEncoder`s and
rebuild every row. -/
def preprocessFrame (rows : List RawRow) : List ProcRow :=
  let opCodes := labelEncode (rows.map RawRow.Operation_Mode)
  let effCodes := labelEncode (rows.map RawRow.Efficiency_Status)
  (rows.zip (opCodes.zip effCodes)).map fun p => preprocessRow p.1 p.2.1 p.2.2

/-- Feature row of one processed record in the order of `self.features`
(`Operation_Mode`, nine telemetry columns, `Year`, `Month`, `Day`, `Hour`).
`none` when a calendar field is NaN — `StandardScaler.fit` rejects NaN input,
so such a frame cannot be scaled. -/
def ProcRow.featureRow (r : ProcRow) : Option (List Rat) :=
  match r.Year, r.Month, r.Day, r.Hour with
  | some y, some mo, some d, some h =>
    some [(r.Operation_Mode : Rat), r.Temperature_C, r.Vibration_Hz, r.Power_Consumption_kW,
          r.Network_Latency_ms, r.Packet_Loss_Pct, r.Quality_Control_Defect_Rate_Pct,
          r.Production_Speed_units_per_hr, r.Predictive_Maintenance_Score, r.Error_Rate_Pct,
          (y : Rat), (mo : Rat), (d : Rat), (h : Rat)]
  | _, _, _, _ => none

/-- Feature matrix `self.df[self.features]` of a processed frame, row by row: defined
exactly when no calendar field is NaN (otherwise `StandardScaler.fit` raises). -/
def rowsMatrix : List ProcRow → Option (List (List Rat))
  | [] => some []
  | r :: rs =>
    match r.featureRow, rowsMatrix rs with
    | some v, some vs => some (v :: vs)
    | _, _ => none

/-! ### Pipeline stages of `DataProcessing` -/

/-- In-memory dataframe of `DataProcessing`: the same `self.df` attribute holds the raw
frame after `load_data` and the processed frame after `preprocess`. -/
inductive Frame where
  | raw (rows : List RawRow)
  | proc (rows : List ProcRow)
  deriving DecidableEq

/-- Mutable state of a `DataProcessing` instance: `self.df`, `None` until `load_data`. -/
structure DPState where
  df : Option Frame
  deriving DecidableEq

/-- Fresh `DataProcessing` instance (`self.df = None`). -/
def DPState.init : DPState := ⟨none⟩

/-- Message of the explicit state-check `ValueError` in `preprocess` and
`split_and_scale_and_save`. -/
def dfNotLoadedMsg : String := "Dataframe is not loaded. Call load_data() first."

/-- `DataProcessing.load_data`: `pd.read_csv` modelled by an optional content of the
input path; a read failure is wrapped in `CustomException("Failed to load data", e)`. -/
def DataProcessing.load_data (csv : Option (List RawRow)) (s : DPState) :
    Except CustomException DPState :=
  match csv with
  | some rows => .ok { s with df := some (.raw rows) }
  | none => .error ⟨"Failed to load data", .libError "read_csv failed"⟩

/-- `DataProcessing.preprocess`: explicit fail-fast `ValueError` when `self.df is None`;
on a raw frame, timestamp expansion plus label encoding; calling it again on an already
processed frame hits `pd.to_datetime` on the dropped `Timestamp` column (a `KeyError`
from the library, wrapped like every other stage error). -/
def DataProcessing.preprocess (s : DPState) : Except CustomException DPState :=
  match s.df with
  | none => .error ⟨"Failed to preprocess data", .stateError dfNotLoadedMsg⟩
  | some (.raw rows) => .ok { s with df := some (.proc (preprocessFrame rows)) }
  | some (.proc _) => .error ⟨"Failed to preprocess data", .libError "KeyError: Timestamp"⟩

/-- Record of the `train_test_split` call issued by `split_and_scale_and_save`
(the split itself is sklearn library code; the embedding captures exactly the
arguments the pipeline passes it). -/
structure SplitCall where
  X : List (List Rat)
  y : List Nat
  test_size : Rat
  random_state : Nat
  stratify : Option (List Nat)
  deriving DecidableEq

/-- Artefacts persisted by a successful `split_and_scale_and_save`: the fitted scaler
and the recorded split call whose outputs are dumped as the four partitions. -/
structure DPArtifacts where
  scaler : ScalerState
  split : SplitCall
  deriving DecidableEq

/-- `DataProcessing.split_and_scale_and_save`: explicit fail-fast `ValueError` when
`self.df is None`; on a raw frame the feature selection `self.df[self.features]` raises
a `KeyError` (`Year` etc. do not exist yet); on a processed frame, select the feature
matrix and target, `StandardScaler().fit_transform` the full matrix (NaN rows make the
scaler raise), then call `train_test_split(X_scaled, y, test_size=0.2, random_state=42,
stratify=y)` and persist. -/
def DataProcessing.split_and_scale_and_save (s : DPState) :
    Except CustomException (DPState × DPArtifacts) :=
  match s.df with
  | none => .error ⟨"Failed to split, scale, and save data", .stateError dfNotLoadedMsg⟩
  | some (.raw _) => .error ⟨"Failed to split, scale, and save data", .libError "KeyError: Year"⟩
  | some (.proc rows) =>
    match rowsMatrix rows with
    | none =>
      .error ⟨"Failed to split, scale, and save data", .libError "Input contains NaN"⟩
    | some X =>
      let y := rows.map ProcRow.Efficiency_Status
      let scaler := fitScaler X
      let X_scaled := X.map scaler.transform
      .ok ({ s with df := some (.proc rows) },
           { scaler := scaler
             split := { X := X_scaled, y := y, test_size := 1 / 5, random_state := 42,
                        stratify := some y } })

/-- `DataProcessing.run`: load → preprocess → split/scale/save in order. -/
def DataProcessing.run (csv : Option (List RawRow)) :
    Except CustomException (DPState × DPArtifacts) := do
  let s ← DataProcessing.load_data csv DPState.init
  let s ← DataProcessing.preprocess s
  DataProcessing.split_and_scale_and_save s

/-! ### Pipeline stages of `ModelTraining` -/

/-- Events observable from the training stage: the unconditional `joblib.dump` of the
fitted model inside `train_model`, and the metric logging inside `evaluate_model`. -/
inductive MTEvent (M : Type) where
  | savedModel (path : String) (m : M)
  | loggedMetrics (accuracyV precisionV recallV f1V : Rat)
  deriving DecidableEq

/-- Mutable state of a `ModelTraining` instance over an abstract fitted-model type `M`:
every attribute starts as `None` in `__init__`. -/
structure MTState (M : Type) where
  clf : Option M
  X_train : Option (List (List Rat))
  X_test : Option (List (List Rat))
  y_train : Option (List Nat)
  y_test : Option (List Nat)
  deriving DecidableEq

/-- Fresh `ModelTraining` instance. -/
def MTState.init (M : Type) : MTState M := ⟨none, none, none, none, none⟩

/-- Message of the validation error sklearn raises when `fit` receives `None` data. -/
def noneFitMsg : String := "Expected 2D array, got None"

/-- `LogisticRegression(...).fit(X, y)` as called by `train_model`: sklearn validates
its input and raises when handed `None` (the attributes are `None` whenever
`load_data` has not run); on real data it returns the fitted model `fit X y`. -/
def clf_fit {M : Type} (fit : List (List Rat) → List Nat → M) :
    Option (List (List Rat)) → Option (List Nat) → Except String M
  | some X, some y => .ok (fit X y)
  | _, _ => .error noneFitMsg

/-- `ModelTraining.load_data`: `joblib.load` of the four persisted partitions,
modelled by the optional content of the processed directory. -/
def ModelTraining.load_data {M : Type}
    (art : Option (List (List Rat) × List (List Rat) × List Nat × List Nat))
    (s : MTState M) : Except CustomException (MTState M) :=
  match art with
  | some (X1, X2, y1, y2) =>
    .ok { s with X_train := some X1, X_test := some X2, y_train := some y1, y_test := some y2 }
  | none => .error ⟨"Failed to load processed data", .libError "FileNotFoundError"⟩

/-- `ModelTraining.train_model`: note the source has no explicit state guard here — it
passes `self.X_train` / `self.y_train` (still `None` when `load_data` has not run)
straight into `LogisticRegression.fit`, and any resulting library error is wrapped in
`CustomException("Failed to train model", e)`. On success the fitted model is
immediately persisted with `joblib.dump` (the `savedModel` event), before any
evaluation happens and regardless of any metric. -/
def ModelTraining.train_model {M : Type} (fit : List (List Rat) → List Nat → M)
    (s : MTState M) : Except CustomException (MTState M × List (MTEvent M)) :=
  match clf_fit fit s.X_train s.y_train with
  | .ok m => .ok ({ s with clf := some m }, [.savedModel "model.pkl" m])
  | .error e => .error ⟨"Failed to train model", .libError e⟩

/-- Message of the explicit state-check `ValueError` in `evaluate_model`. -/
def notTrainedMsg : String := "Model not trained. Call train_model() before evaluation."

/-- `ModelTraining.evaluate_model`: explicit fail-fast `ValueError` when
`self.clf is None`; otherwise predict on the test partition and log accuracy and
weighted precision/recall/F1 (`score` abstracts the four sklearn metric functions,
which are pure functions of `y_test` and `y_pred`). Evaluation only logs — it neither
persists nor deletes anything. -/
def ModelTraining.evaluate_model {M : Type} (predict : M → List (List Rat) → List Nat)
    (score : List Nat → List Nat → Rat × Rat × Rat × Rat)
    (s : MTState M) : Except CustomException (List (MTEvent M)) :=
  match s.clf with
  | none => .error ⟨"Failed to evaluate model", .stateError notTrainedMsg⟩
  | some m =>
    match s.X_test, s.y_test with
    | some X2, some y2 =>
      let y_pred := predict m X2
      let q := score y2 y_pred
      .ok [.loggedMetrics q.1 q.2.1 q.2.2.1 q.2.2.2]
    | _, _ => .error ⟨"Failed to evaluate model", .libError noneFitMsg⟩

/-- `ModelTraining.run`: load → train (which persists) → evaluate, collecting the
observable events in execution order. -/
def ModelTraining.run {M : Type} (fit : List (List Rat) → List Nat → M)
    (predict : M → List (List Rat) → List Nat)
    (score : List Nat → List Nat → Rat × Rat × Rat × Rat)
    (art : Option (List (List Rat) × List (List Rat) × List Nat × List Nat)) :
    Except CustomException (MTState M × List (MTEvent M)) := do
  let s ← ModelTraining.load_data art (MTState.init M)
  let p ← ModelTraining.train_model fit s
  let ev2 ← ModelTraining.evaluate_model predict score p.1
  .ok (p.1, p.2 ++ ev2)

end MachineMaintenance

namespace MachineMaintenance

/-- Processed record used to witness the split-and-scale behaviour. -/
def wProcRow : ProcRow :=
  ⟨1, 0, 65, 50, 35, 15, 1, 1, 120, 55, 1, some 2024, some 1, some 15, some 10⟩

/-- Feature matrix of the singleton witness frame. -/
def wMat : List (List Rat) :=
  [[1, 65, 50, 35, 15, 1, 1, 120, 55, 1, 2024, 1, 15, 10]]

/-! ### Order facts used to characterise `LabelEncoder` codes -/


/-- Two characters with the same code point are equal. -/
theorem charToNat_inj {a b : Char} (h : a.toNat = b.toNat) : a = b := by
  have h1 := Char.ofNat_toNat a
  have h2 := Char.ofNat_toNat b
  rw [← h1, ← h2, h]

theorem charListLtB_irrefl : ∀ l, charListLtB l l = false
  | [] => rfl
  | a :: as => by simp [charListLtB, charListLtB_irrefl as]

theorem charListLtB_asymm :
    ∀ {l₁ l₂}, charListLtB l₁ l₂ = true → charListLtB l₂ l₁ = true → False
  | [], [], h₁, _ => by simp [charListLtB] at h₁
  | [], _ :: _, _, h₂ => by simp [charListLtB] at h₂
  | _ :: _, [], h₁, _ => by simp [charListLtB] at h₁
  | a :: as, b :: bs, h₁, h₂ => by
    rcases Nat.lt_trichotomy a.toNat b.toNat with h | h | h
    · simp [charListLtB, h, Nat.lt_asymm h] at h₂
    · simp [charListLtB, h, Nat.lt_irrefl] at h₁ h₂
      exact charListLtB_asymm h₁ h₂
    · simp [charListLtB, h, Nat.lt_asymm h] at h₁

theorem charListLeB_iff :
    ∀ l₁ l₂, charListLeB l₁ l₂ = true ↔ charListLtB l₂ l₁ = false
  | [], [] => by simp [charListLeB, charListLtB]
  | [], _ :: _ => by simp [charListLeB, charListLtB]
  | _ :: _, [] => by simp [charListLeB, charListLtB]
  | a :: as, b :: bs => by
    rcases Nat.lt_trichotomy a.toNat b.toNat with h | h | h
    · simp [charListLeB, charListLtB, h, Nat.lt_asymm h]
    · simp [charListLeB, charListLtB, h, Nat.lt_irrefl, charListLeB_iff as bs]
    · simp [charListLeB, charListLtB, h, Nat.lt_asymm h]

theorem charListLeB_trans :
    ∀ {l₁ l₂ l₃}, charListLeB l₁ l₂ = true → charListLeB l₂ l₃ = true →
      charListLeB l₁ l₃ = true
  | [], _, _, _, _ => rfl
  | _ :: _, [], _, h₁, _ => by simp [charListLeB] at h₁
  | _ :: _, _ :: _, [], _, h₂ => by simp [charListLeB] at h₂
  | a :: as, b :: bs, c :: cs, h₁, h₂ => by
    rcases Nat.lt_trichotomy a.toNat b.toNat with hab | hab | hab
    · rcases Nat.lt_trichotomy b.toNat c.toNat with hbc | hbc | hbc
      · simp [charListLeB, Nat.lt_trans hab hbc]
      · simp [charListLeB, hbc ▸ hab]
      · simp [charListLeB, hbc, Nat.lt_asymm hbc] at h₂
    · rcases Nat.lt_trichotomy b.toNat c.toNat with hbc | hbc | hbc
      · simp [charListLeB, hab ▸ hbc]
      · have h₁' : charListLeB as bs = true := by
          simpa [charListLeB, hab, Nat.lt_irrefl] using h₁
        have h₂' : charListLeB bs cs = true := by
          simpa [charListLeB, hbc, Nat.lt_irrefl] using h₂
        have hac : a.toNat = c.toNat := hab.trans hbc
        simp [charListLeB, hac, Nat.lt_irrefl, charListLeB_trans h₁' h₂']
      · simp [charListLeB, hbc, Nat.lt_asymm hbc] at h₂
    · simp [charListLeB, hab, Nat.lt_asymm hab] at h₁

theorem charListLtB_of_leB_of_ne :
    ∀ {l₁ l₂}, charListLeB l₁ l₂ = true → l₁ ≠ l₂ → charListLtB l₁ l₂ = true
  | [], [], _, hne => absurd rfl hne
  | [], _ :: _, _, _ => rfl
  | _ :: _, [], h₁, _ => by simp [charListLeB] at h₁
  | a :: as, b :: bs, h₁, hne => by
    rcases Nat.lt_trichotomy a.toNat b.toNat with h | h | h
    · simp [charListLtB, h]
    · have hab : a = b := charToNat_inj h
      subst hab
      have hne' : as ≠ bs := fun hh => hne (by rw [hh])
      simp [charListLeB, Nat.lt_irrefl] at h₁
      simp [charListLtB, Nat.lt_irrefl]
      exact charListLtB_of_leB_of_ne h₁ hne'
    · simp [charListLeB, h, Nat.lt_asymm h] at h₁

/-- Totality used by the insertion sort: a failed `strLeB x y` test means `y` is
strictly below `x`. -/
theorem strLtB_of_not_leB {x y : String} (h : strLeB x y = false) : strLtB y x = true := by
  have hiff := charListLeB_iff x.toList y.toList
  unfold strLeB at h
  unfold strLtB
  rcases Bool.eq_false_or_eq_true (charListLtB y.toList x.toList) with ht | hf
  · exact ht
  · rw [hiff.mpr hf] at h; cases h

theorem strLeB_of_ltB {x y : String} (h : strLtB x y = true) : strLeB x y = true := by
  unfold strLtB at h
  unfold strLeB
  refine (charListLeB_iff x.toList y.toList).mpr ?_
  rcases Bool.eq_false_or_eq_true (charListLtB y.toList x.toList) with ht | hf
  · exact absurd (charListLtB_asymm h ht) (fun f => f)
  · exact hf

theorem strLeB_trans {x y z : String} (h₁ : strLeB x y = true) (h₂ : strLeB y z = true) :
    strLeB x z = true := charListLeB_trans h₁ h₂

theorem strLtB_irrefl (x : String) : strLtB x x = false := charListLtB_irrefl _

theorem strLtB_asymm {x y : String} (h₁ : strLtB x y = true) (h₂ : strLtB y x = true) :
    False := charListLtB_asymm h₁ h₂

theorem strLtB_of_leB_of_ne {x y : String} (h₁ : strLeB x y = true) (h₂ : x ≠ y) :
    strLtB x y = true :=
  charListLtB_of_leB_of_ne h₁ (fun hl => h₂ (String.toList_inj.mp hl))


/-- Membership through `insertSorted`. -/
theorem mem_insertSorted {x a : String} :
    ∀ {l : List String}, a ∈ insertSorted x l ↔ a = x ∨ a ∈ l
  | [] => by simp [insertSorted]
  | y :: ys => by
    cases hcase : strLeB x y with
    | true =>
      simp [insertSorted, hcase]
    | false =>
      simp [insertSorted, hcase, mem_insertSorted (l := ys)]
      tauto

/-- Inserting a fresh element preserves `Nodup`. -/
theorem nodup_insertSorted {x : String} :
    ∀ {l : List String}, x ∉ l → l.Nodup → (insertSorted x l).Nodup
  | [] => by simp [insertSorted]
  | y :: ys => by
    intro hx hnd
    cases hcase : strLeB x y with
    | true =>
      simp only [insertSorted, hcase, if_true]
      exact List.nodup_cons.mpr ⟨hx, hnd⟩
    | false =>
      simp only [insertSorted, hcase, Bool.false_eq_true, if_false]
      rcases List.nodup_cons.mp hnd with ⟨hy, hys⟩
      refine List.nodup_cons.mpr ⟨?_, ?_⟩
      · intro hmem
        rcases mem_insertSorted.mp hmem with rfl | hmem'
        · exact hx (List.mem_cons_self _ _)
        · exact hy hmem'
      · exact nodup_insertSorted (fun hm => hx (List.mem_cons_of_mem _ hm)) hys

/-- Insertion preserves pairwise sortedness. -/
theorem pairwise_insertSorted {x : String} :
    ∀ {l : List String}, l.Pairwise leBPair → (insertSorted x l).Pairwise leBPair
  | [] => by simp [insertSorted, leBPair]
  | y :: ys => by
    intro hp
    rcases List.pairwise_cons.mp hp with ⟨hy, hys⟩
    cases hcase : strLeB x y with
    | true =>
      simp only [insertSorted, hcase, if_true]
      refine List.pairwise_cons.mpr ⟨?_, hp⟩
      intro z hz
      rcases List.mem_cons.mp hz with rfl | hz'
      · exact hcase
      · exact strLeB_trans hcase (hy z hz')
    | false =>
      simp only [insertSorted, hcase, Bool.false_eq_true, if_false]
      have hyx : strLeB y x = true := strLeB_of_ltB (strLtB_of_not_leB hcase)
      refine List.pairwise_cons.mpr ⟨?_, pairwise_insertSorted hys⟩
      intro z hz
      rcases mem_insertSorted.mp hz with rfl | hz'
      · exact hyx
      · exact hy z hz'

/-- Membership through `sortStr`. -/
theorem mem_sortStr {a : String} : ∀ {l : List String}, a ∈ sortStr l ↔ a ∈ l
  | [] => Iff.rfl
  | x :: xs => by
    simp only [sortStr, mem_insertSorted, mem_sortStr (l := xs), List.mem_cons]

/-- `sortStr` preserves `Nodup`. -/
theorem nodup_sortStr : ∀ {l : List String}, l.Nodup → (sortStr l).Nodup
  | [] => fun _ => List.nodup_nil
  | x :: xs => fun hnd => by
    rcases List.nodup_cons.mp hnd with ⟨hx, hxs⟩
    exact nodup_insertSorted (fun hm => hx (mem_sortStr.mp hm)) (nodup_sortStr hxs)

/-- `sortStr` sorts. -/
theorem pairwise_sortStr : ∀ (l : List String), (sortStr l).Pairwise leBPair
  | [] => List.Pairwise.nil
  | _ :: xs => pairwise_insertSorted (pairwise_sortStr xs)

/-- In a strictly sorted list, `indexOf` is strictly monotone in the order. -/
theorem indexOf_lt_indexOf_of_pairwise :
    ∀ {l : List String}, l.Pairwise (fun a b => strLtB a b = true) →
      ∀ {x y : String}, x ∈ l → y ∈ l → strLtB x y = true →
        l.indexOf x < l.indexOf y
  | [], _, _, _, hx, _, _ => absurd hx (List.not_mem_nil _)
  | a :: t, hp, x, y, hx, hy, hxy => by
    rcases List.pairwise_cons.mp hp with ⟨ha, ht⟩
    by_cases hxa : x = a
    · subst hxa
      have hyx : y ≠ x := by
        rintro rfl
        rw [strLtB_irrefl] at hxy
        cases hxy
      rw [List.indexOf_cons_self, List.indexOf_cons_ne _ (fun hh => hyx hh.symm)]
      exact Nat.succ_pos _
    · have hxt : x ∈ t := by
        rcases List.mem_cons.mp hx with rfl | h
        · exact absurd rfl hxa
        · exact h
      have hya : y ≠ a := by
        rintro rfl
        exact strLtB_asymm hxy (ha x hxt)
      have hyt : y ∈ t := by
        rcases List.mem_cons.mp hy with rfl | h
        · exact absurd rfl hya
        · exact h
      rw [List.indexOf_cons_ne _ (fun hh => hxa hh.symm),
        List.indexOf_cons_ne _ (fun hh => hya hh.symm)]
      exact Nat.succ_lt_succ (indexOf_lt_indexOf_of_pairwise ht hxt hyt hxy)


/-- The classes list of a fitted `LabelEncoder` has no duplicates. -/
theorem nodup_sortedUnique (xs : List String) : (sortedUnique xs).Nodup :=
  nodup_sortStr xs.nodup_dedup

/-- The classes list of a fitted `LabelEncoder` holds exactly the column's values. -/
theorem mem_sortedUnique {a : String} {xs : List String} :
    a ∈ sortedUnique xs ↔ a ∈ xs := by
  constructor
  · intro h
    exact List.mem_dedup.mp (mem_sortStr.mp h)
  · intro h
    exact mem_sortStr.mpr (List.mem_dedup.mpr h)

/-- The classes list is strictly sorted in ascending byte order. -/
theorem pairwise_ltB_sortedUnique (xs : List String) :
    (sortedUnique xs).Pairwise (fun a b => strLtB a b = true) := by
  have h1 : (sortedUnique xs).Pairwise leBPair := pairwise_sortStr xs.dedup
  have h2 : (sortedUnique xs).Pairwise (· ≠ ·) := nodup_sortedUnique xs
  exact (h1.and h2).imp fun hab => strLtB_of_leB_of_ne hab.1 hab.2

/-- Label codes grow strictly with the lexicographic order of the labels. -/
theorem encodeOf_strictMono {xs : List String} {x y : String} (hx : x ∈ xs)
    (hy : y ∈ xs) (hxy : strLtB x y = true) : encodeOf xs x < encodeOf xs y :=
  indexOf_lt_indexOf_of_pairwise (pairwise_ltB_sortedUnique xs)
    (mem_sortedUnique.mpr hx) (mem_sortedUnique.mpr hy) hxy

/-- Every code is below the number of distinct labels. -/
theorem encodeOf_lt_card {xs : List String} {x : String} (hx : x ∈ xs) :
    encodeOf xs x < (sortedUnique xs).length :=
  List.indexOf_lt_length.mpr (mem_sortedUnique.mpr hx)

/-- Every code below the number of distinct labels is attained: the codes are dense. -/
theorem encodeOf_surjective (xs : List String) (c : Nat)
    (hc : c < (sortedUnique xs).length) : ∃ x ∈ xs, encodeOf xs x = c := by
  refine ⟨(sortedUnique xs).get ⟨c, hc⟩, ?_, ?_⟩
  · exact mem_sortedUnique.mp (List.get_mem _ _ _)
  · exact List.get_indexOf (nodup_sortedUnique xs) ⟨c, hc⟩

/-- Lookup of a transformed row at one feature position. -/
theorem transformRow_get? :
    ∀ (j : Nat) (xs ms vs : List Rat) (x m v : Rat),
      xs.get? j = some x → ms.get? j = some m → vs.get? j = some v →
      (transformRow xs ms vs).get? j = some ((x - m) / scaleOf v)
  | 0, x' :: _, m' :: _, v' :: _, x, m, v => by
    intro hx hm hv
    simp only [List.get?] at hx hm hv
    cases hx; cases hm; cases hv
    simp [transformRow, List.get?]
  | j + 1, _ :: xs, _ :: ms, _ :: vs, x, m, v => by
    intro hx hm hv
    simp only [List.get?] at hx hm hv
    simpa [transformRow, List.get?] using transformRow_get? j xs ms vs x m v hx hm hv
  | _, [], _, _, _, _, _ => by intro hx _ _; simp [List.get?] at hx
  | _, _ :: _, [], _, _, _, _ => by intro _ hm _; simp [List.get?] at hm
  | _, _ :: _, _ :: _, [], _, _, _ => by intro _ _ hv; simp [List.get?] at hv

/-- A constant column has mean equal to the constant. -/
theorem colMean_replicate (n : Nat) (c : Rat) :
    colMean (List.replicate (n + 1) c) = c := by
  have hne : ((n : Rat) + 1) ≠ 0 := by positivity
  simp [colMean, List.sum_replicate, nsmul_eq_mul]
  field_simp

/-- A constant column has zero population variance. -/
theorem colVar_replicate (n : Nat) (c : Rat) :
    colVar (List.replicate (n + 1) c) = 0 := by
  simp [colVar, colMean_replicate, List.map_replicate, sub_self, List.sum_replicate]

/-- C1 counterexample: the spec's first-seen encoding disagrees with the source's
`LabelEncoder` (which sorts classes) on the operation-mode column
`["Idle", "Active", "Maintenance"]`, and the serving-side `OPERATION_MODE_MAP` gives
`"Idle"` code 0 while training gives it code 1. -/
theorem C1_label_encoding_counterexample :
    labelEncode ["Idle", "Active", "Maintenance"] = [1, 0, 2]
    ∧ firstSeenEncode ["Idle", "Active", "Maintenance"] = [0, 1, 2]
    ∧ labelEncode ["Idle", "Active", "Maintenance"]
        ≠ firstSeenEncode ["Idle", "Active", "Maintenance"]
    ∧ encodeOf ["Idle", "Active", "Maintenance"] "Idle" = 1
    ∧ App.OPERATION_MODE_MAP.lookup "Idle" = some 0 := by
  refine ⟨?_, ?_, ?_, ?_, ?_⟩ <;> decide

/-- C1 amended: training label codes are dense non-negative integers assigned in
ascending lexicographic order of the distinct category strings (sklearn
`LabelEncoder` sorts its classes) — not in first-seen order — and for the known
operation-mode label set the serving-side map does not reproduce the training codes
(training assigns `"Idle"` code 1, serving assigns it code 0). -/
theorem C1_label_encoding_amended :
    (∀ (xs : List String) (x y : String), x ∈ xs → y ∈ xs → strLtB x y = true →
        encodeOf xs x < encodeOf xs y)
    ∧ (∀ (xs : List String) (x : String), x ∈ xs →
        encodeOf xs x < (sortedUnique xs).length)
    ∧ (∀ (xs : List String) (c : Nat), c < (sortedUnique xs).length →
        ∃ x ∈ xs, encodeOf xs x = c)
    ∧ encodeOf ["Idle", "Active", "Maintenance"] "Idle" = 1
    ∧ App.OPERATION_MODE_MAP.lookup "Idle" = some 0 := by
  refine ⟨?_, ?_, ?_, by decide, by decide⟩
  · intro xs x y hx hy hxy
    exact encodeOf_strictMono hx hy hxy
  · intro xs x hx
    exact encodeOf_lt_card hx
  · intro xs c hc
    exact encodeOf_surjective xs c hc

/-- Witness for C1 amended at the concrete operation-mode column. -/
theorem C1_label_encoding_amended_witness :
    encodeOf ["Idle", "Active"] "Active" < encodeOf ["Idle", "Active"] "Idle"
    ∧ encodeOf ["Idle", "Active"] "Idle" < (sortedUnique ["Idle", "Active"]).length
    ∧ (∃ x ∈ ["Idle", "Active"], encodeOf ["Idle", "Active"] x = 0) :=
  ⟨C1_label_encoding_amended.1 ["Idle", "Active"] "Active" "Idle" (by decide) (by decide)
      (by decide),
   C1_label_encoding_amended.2.1 ["Idle", "Active"] "Idle" (by decide),
   C1_label_encoding_amended.2.2.1 ["Idle", "Active"] 0 (by decide)⟩

/-- C6 counterexample: fit the scaler on a training set whose only feature is
constant (value 5, zero variance); transforming the input 7 yields 2 at that
position, not 0 — the zero standard deviation is replaced by 1, so the transform is
`x - mean`, which is 0 only for inputs equal to the training constant. -/
theorem C6_zero_variance_counterexample :
    (fitScaler [[5]]).var = [0]
    ∧ (fitScaler [[5]]).transform [7] = [2]
    ∧ (2 : Rat) ≠ 0 := by
  refine ⟨?_, ?_, by norm_num⟩
  · norm_num [fitScaler, numCols, column, colMean, colVar, List.range_succ]
  · norm_num [fitScaler, numCols, column, colMean, colVar, ScalerState.transform,
      transformRow, scaleOf, List.range_succ]

/-- C6 amended: a feature column that is constant in training has variance exactly 0,
and for a fitted scaler state with zero variance at position `j` the transform of any
input yields exactly `x - mean` there (the zero standard deviation is replaced by 1,
never dividing by zero, so the result is finite and equals 0 precisely on the training
constant — in particular on every training row). -/
theorem C6_zero_variance_amended :
    (∀ (n : Nat) (c : Rat), colVar (List.replicate (n + 1) c) = 0)
    ∧ ∀ (X : List (List Rat)) (j : Nat) (row : List Rat) (x m : Rat),
        (fitScaler X).var.get? j = some 0 → (fitScaler X).mean.get? j = some m →
        row.get? j = some x →
        ((fitScaler X).transform row).get? j = some (x - m) := by
  refine ⟨colVar_replicate, ?_⟩
  intro X j row x m hv hm hx
  have h := transformRow_get? j row (fitScaler X).mean (fitScaler X).var x m 0 hx hm hv
  rw [ScalerState.transform, h]
  norm_num [scaleOf]

/-- Witness for C6 amended: a two-row training set constant at its single feature. -/
theorem C6_zero_variance_amended_witness :
    colVar (List.replicate 2 (5 : Rat)) = 0
    ∧ ((fitScaler [[5], [5]]).transform [7]).get? 0 = some (7 - 5) :=
  ⟨C6_zero_variance_amended.1 1 5,
   C6_zero_variance_amended.2 [[5], [5]] 0 [7] 7 5
     (by norm_num [fitScaler, numCols, column, colMean, colVar, List.range_succ, List.get?])
     (by norm_num [fitScaler, numCols, column, colMean, colVar, List.range_succ, List.get?])
     (by norm_num [List.get?])⟩

open App in
/-- C2: a POST whose Operation_Mode value is a label outside the known map makes the
feature-vector assembly fail with the reported unknown-category error, and the handler
renders the diagnostic string; no default code is ever substituted for the unknown
label. -/
theorem C2_unknown_category (st : ScalerState) (predict : List Rat → Except String Int)
    (defaults : String → Rat) (form : Form) (label : String)
    (hmode : form.lookup "Operation_Mode" = some label)
    (hmap : OPERATION_MODE_MAP.lookup label = none) :
    buildValues defaults form = Except.error (.unknownCategory label)
    ∧ (indexPost st predict defaults form).prediction
        = some ("Error: " ++ (AppError.unknownCategory label).message) := by
  have hbuild : buildValues defaults form = Except.error (.unknownCategory label) := by
    simp [buildValues, buildLoop, FEATURES, featureValue, modeValue, hmode, hmap,
      Except.map]
  exact ⟨hbuild, by simp [indexPost, postBody, hbuild]⟩

open App in
/-- Witness for C2 at the unknown label `"Turbo"`. -/
theorem C2_unknown_category_witness :
    ([("Operation_Mode", "Turbo")] : Form).lookup "Operation_Mode" = some "Turbo"
    ∧ OPERATION_MODE_MAP.lookup "Turbo" = none
    ∧ buildValues (fun _ => 0) [("Operation_Mode", "Turbo")]
        = Except.error (.unknownCategory "Turbo") :=
  ⟨by decide, by decide,
   (C2_unknown_category ⟨[], []⟩ (fun _ => Except.ok 0) (fun _ => 0)
      [("Operation_Mode", "Turbo")] "Turbo" (by decide) (by decide)).1⟩

open App in
/-- C3 counterexample: a submission that lacks all thirteen numeric raw fields does
not fail with any missing-field error — the feature vector is assembled successfully
from the built-in default table (no `MissingFieldError` exists in the serving code). -/
theorem C3_missing_field_counterexample :
    buildValues (DEFAULTS_FALLBACK 2024 1 15 10) [("Operation_Mode", "Active")]
      = Except.ok [(1 : Rat), 65, 50, 35, 15, 1 / 2, 1, 120, 55, 4 / 5,
          2024, 1, 15, 10] := rfl

open App in
/-- C3 amended: a raw field absent from the submission is substituted from the
built-in default table (any absent numeric field takes its `DEFAULTS_FALLBACK`
value, an absent Operation_Mode takes the first known choice, code 0), and
preparation succeeds instead of failing. -/
theorem C3_missing_field_amended :
    (∀ (d : String → Rat) (form : Form) (feat : String),
        feat ≠ "Operation_Mode" → form.lookup feat = none →
        featureValue d form feat = Except.ok (d feat))
    ∧ ∀ d : String → Rat,
        buildValues d [] = Except.ok ((0 : Rat) :: FEATURES.tail.map d) := by
  constructor
  · intro d form feat hne hnone
    simp [featureValue, hne, numericValue, hnone]
  · intro d
    rfl

open App in
/-- Witness for C3 amended at the built-in default table. -/
theorem C3_missing_field_amended_witness :
    featureValue (DEFAULTS_FALLBACK 2024 1 15 10) [] "Temperature_C"
      = Except.ok (DEFAULTS_FALLBACK 2024 1 15 10 "Temperature_C")
    ∧ buildValues (DEFAULTS_FALLBACK 2024 1 15 10) []
      = Except.ok ((0 : Rat) :: FEATURES.tail.map (DEFAULTS_FALLBACK 2024 1 15 10)) :=
  ⟨C3_missing_field_amended.1 (DEFAULTS_FALLBACK 2024 1 15 10) [] "Temperature_C"
      (by decide) rfl,
   C3_missing_field_amended.2 (DEFAULTS_FALLBACK 2024 1 15 10)⟩

open App in
/-- C7: the POST handler's body runs inside a catch-all boundary — the response always
renders, carrying either the predicted label or the diagnostic string built from the
error; no per-request error escapes the handler. -/
theorem C7_serving_catches_errors (st : ScalerState)
    (predict : List Rat → Except String Int) (defaults : String → Rat) (form : Form) :
    (∃ v, postBody st predict defaults form = Except.ok v
        ∧ (indexPost st predict defaults form).prediction = some v)
    ∨ ∃ e, postBody st predict defaults form = Except.error e
        ∧ (indexPost st predict defaults form).prediction = some ("Error: " ++ e) := by
  cases h : postBody st predict defaults form with
  | ok v => exact Or.inl ⟨v, rfl, by simp [indexPost, h]⟩
  | error e => exact Or.inr ⟨e, rfl, by simp [indexPost, h]⟩

open App in
/-- C10: a POST with the Operation_Mode field absent raises no unknown-category
error — the handler substitutes the first known choice `"Idle"` (code 0) and proceeds
to a prediction. -/
theorem C10_absent_mode_defaults :
    (∀ form : Form, form.lookup "Operation_Mode" = none →
        modeValue form = Except.ok 0)
    ∧ OPERATION_MODE_CHOICES.getD 0 "" = "Idle"
    ∧ OPERATION_MODE_MAP.lookup "Idle" = some 0
    ∧ ∀ (st : ScalerState) (pidx : List Rat → Int) (d : String → Rat),
        (indexPost st (fun r => Except.ok (pidx r)) d []).prediction
          = some (labelFor (pidx (st.transform ((0 : Rat) :: FEATURES.tail.map d)))) := by
  refine ⟨?_, by decide, by decide, ?_⟩
  · intro form h
    simp [modeValue, h, OPERATION_MODE_CHOICES, OPERATION_MODE_MAP]
  · intro st pidx d
    rfl

open App in
/-- Witness for C10 at the empty form. -/
theorem C10_absent_mode_defaults_witness :
    modeValue [] = Except.ok 0 :=
  C10_absent_mode_defaults.1 [] rfl

/-- C4: on a processed frame whose feature matrix is NaN-free,
`split_and_scale_and_save` fits the scaler on the complete matrix (all records,
before any split), transforms the whole matrix with it, and only then issues the
`train_test_split` call on the scaled data with `test_size = 0.2`,
`random_state = 42` and `stratify` equal to the class label column; every record is
still present when the split is invoked. -/
theorem C4_scale_before_split (s : DPState) (rows : List ProcRow)
    (X : List (List Rat)) (hdf : s.df = some (.proc rows))
    (hX : rowsMatrix rows = some X) :
    DataProcessing.split_and_scale_and_save s
      = Except.ok ({ s with df := some (.proc rows) },
          { scaler := fitScaler X
            split := { X := X.map (fitScaler X).transform
                       y := rows.map ProcRow.Efficiency_Status
                       test_size := 1 / 5
                       random_state := 42
                       stratify := some (rows.map ProcRow.Efficiency_Status) } })
    ∧ (X.map (fitScaler X).transform).length = X.length := by
  refine ⟨?_, List.length_map _ _⟩
  simp [DataProcessing.split_and_scale_and_save, hdf, hX]

/-- Witness for C4 at a singleton processed frame. -/
theorem C4_scale_before_split_witness :
    (wMat.map (fitScaler wMat).transform).length = wMat.length :=
  (C4_scale_before_split ⟨some (Frame.proc [wProcRow])⟩ [wProcRow] wMat rfl rfl).2

/-- C5 counterexample: `train_model` invoked on a fresh instance (before `load_data`)
does not fail fast with the state-check error — it hands the null attributes straight
to the library fit, whose error is wrapped as a generic stage failure, not a state
error. -/
theorem C5_state_check_counterexample :
    ModelTraining.train_model (M := Unit) (fun _ _ => ()) (MTState.init Unit)
      = Except.error ⟨"Failed to train model", ErrCause.libError noneFitMsg⟩
    ∧ (ErrCause.libError noneFitMsg).isStateError = false := ⟨rfl, rfl⟩

/-- C5 amended: `preprocess` and `split_and_scale_and_save` before `load_data`, and
`evaluate_model` before `train_model`, fail fast with the explicit state-check
`ValueError`; but `train_model` before `load_data` has no such guard — it passes the
null data to the classifier fit and surfaces only the library's error wrapped in the
stage exception. -/
theorem C5_state_check_amended :
    (∀ s : DPState, s.df = none →
        DataProcessing.preprocess s
          = Except.error ⟨"Failed to preprocess data", .stateError dfNotLoadedMsg⟩)
    ∧ (∀ s : DPState, s.df = none →
        DataProcessing.split_and_scale_and_save s
          = Except.error
              ⟨"Failed to split, scale, and save data", .stateError dfNotLoadedMsg⟩)
    ∧ (∀ (M : Type) (predict : M → List (List Rat) → List Nat)
          (score : List Nat → List Nat → Rat × Rat × Rat × Rat) (s : MTState M),
        s.clf = none →
        ModelTraining.evaluate_model predict score s
          = Except.error ⟨"Failed to evaluate model", .stateError notTrainedMsg⟩)
    ∧ ∀ (M : Type) (fit : List (List Rat) → List Nat → M),
        ModelTraining.train_model fit (MTState.init M)
          = Except.error ⟨"Failed to train model", .libError noneFitMsg⟩ := by
  refine ⟨?_, ?_, ?_, ?_⟩
  · rintro ⟨_⟩ rfl
    rfl
  · rintro ⟨_⟩ rfl
    rfl
  · rintro M predict score ⟨_, _, _, _, _⟩ rfl
    rfl
  · intro M fit
    rfl

/-- Witness for C5 amended on fresh pipeline instances. -/
theorem C5_state_check_amended_witness :
    DataProcessing.preprocess DPState.init
      = Except.error ⟨"Failed to preprocess data", ErrCause.stateError dfNotLoadedMsg⟩
    ∧ DataProcessing.split_and_scale_and_save DPState.init
      = Except.error
          ⟨"Failed to split, scale, and save data", ErrCause.stateError dfNotLoadedMsg⟩
    ∧ ModelTraining.evaluate_model (M := Unit) (fun _ _ => [])
        (fun _ _ => (0, 0, 0, 0)) (MTState.init Unit)
      = Except.error ⟨"Failed to evaluate model", ErrCause.stateError notTrainedMsg⟩ :=
  ⟨C5_state_check_amended.1 DPState.init rfl,
   C5_state_check_amended.2.1 DPState.init rfl,
   C5_state_check_amended.2.2.1 Unit (fun _ _ => []) (fun _ _ => (0, 0, 0, 0))
     (MTState.init Unit) rfl⟩

/-- C8: a record whose timestamp fails to parse gets all four calendar fields set to
the explicit missing marker (pandas NaN via NaT), never a number that looks valid. -/
theorem C8_unparsable_timestamp (r : RawRow) (opCode effCode : Nat)
    (h : parseTimestamp r.Timestamp = none) :
    (preprocessRow r opCode effCode).Year = none
    ∧ (preprocessRow r opCode effCode).Month = none
    ∧ (preprocessRow r opCode effCode).Day = none
    ∧ (preprocessRow r opCode effCode).Hour = none := by
  refine ⟨?_, ?_, ?_, ?_⟩ <;> simp [preprocessRow, h]

/-- Witness for C8 at a concrete unparsable timestamp. -/
theorem C8_unparsable_timestamp_witness :
    parseTimestamp "not-a-date" = none
    ∧ (preprocessRow
          ⟨"not-a-date", "M1", "Active", "High", 65, 50, 35, 15, 1, 1, 120, 55, 1⟩
          0 0).Year = none :=
  ⟨by decide,
   (C8_unparsable_timestamp
      ⟨"not-a-date", "M1", "Active", "High", 65, 50, 35, 15, 1, 1, 120, 55, 1⟩
      0 0 (by decide)).1⟩

/-- C9: whenever the training pipeline reaches the training step, the fitted model is
persisted by `train_model` itself (the `savedModel` event precedes the metric event in
the run trace) and the trace is the same for every metric function — no accuracy,
precision, recall or F1 value can prevent or revoke persistence. -/
theorem C9_unconditional_persistence (M : Type)
    (fit : List (List Rat) → List Nat → M)
    (predict : M → List (List Rat) → List Nat)
    (score : List Nat → List Nat → Rat × Rat × Rat × Rat)
    (X1 X2 : List (List Rat)) (y1 y2 : List Nat) :
    ModelTraining.run fit predict score (some (X1, X2, y1, y2))
      = Except.ok (⟨some (fit X1 y1), some X1, some X2, some y1, some y2⟩,
          [MTEvent.savedModel "model.pkl" (fit X1 y1),
           MTEvent.loggedMetrics (score y2 (predict (fit X1 y1) X2)).1
             (score y2 (predict (fit X1 y1) X2)).2.1
             (score y2 (predict (fit X1 y1) X2)).2.2.1
             (score y2 (predict (fit X1 y1) X2)).2.2.2]) := rfl

end MachineMaintenance
